import Mathlib

/-!
Verification of the `SimpleWebChatChannel` core
(`src/nanobot/channels/simple_web_chat.py`): session connection registry,
per-session outbound delivery queue and drain loop, media bridge, and
inbound frame handling.

The channel's mutable state is two dictionaries keyed by session id:
`self._connections : dict[str, WebSocket]` and
`self._queues : dict[str, asyncio.Queue]`.  Python dictionaries with
unique keys are embedded as functions `String → Option _`; a live
`WebSocket` handle is abstracted to an opaque `Nat` identity (only
identity and presence of handles matter to the registry logic).
Queued payloads are JSON strings in the source (`json.dumps(...)`); they
are embedded as the structured `OutPayload` values the source serializes,
since serialization is injective and the queue logic never inspects the
text.
-/

/-- One outbound delivery payload, as constructed by the source before
`json.dumps`: `message` (content, media URL list, progress flag, tool-hint
flag), `reaction` (emoji), `typing`, or `error` (content). -/
inductive OutPayload where
  | message (content : String) (media : List String)
      (isProgressMsg : Bool) (isToolHintMsg : Bool)
  | reaction (emoji : String)
  | typing
  | error (content : String)
deriving DecidableEq, Repr

/-- The channel's shared mutable state: `_connections` (session id →
live websocket handle) and `_queues` (session id → FIFO of pending
outbound payloads, front of the list = oldest). -/
structure ChanState where
  connections : String → Option Nat
  queues : String → Option (List OutPayload)

/-- The state at channel construction: both dictionaries empty. -/
def initialState : ChanState :=
  { connections := fun _ => none, queues := fun _ => none }

/-- Lines 815-818 of `ws_endpoint`: on accept, the handle is stored
unconditionally (`self._connections[session_id] = websocket`, replacing
any prior handle), and a queue is created only if the session has none
(`if session_id not in self._queues: self._queues[session_id] = Queue()`). -/
def wsConnect (st : ChanState) (sid : String) (h : Nat) : ChanState :=
  { connections := fun k => if k = sid then some h else st.connections k
    queues :=
      match st.queues sid with
      | some _ => st.queues
      | none => fun k => if k = sid then some [] else st.queues k }

/-- Lines 842-844 of `ws_endpoint`, the `finally` block run when this
handle's receive loop ends: the drain task is cancelled and
`self._connections.pop(session_id, None)` removes the registry entry
unconditionally.  The handle whose teardown is running (`_h`) is in scope
in the source (`websocket`) but is not consulted by the pop.  Queues are
untouched. -/
def wsTeardown (st : ChanState) (sid : String) (_h : Nat) : ChanState :=
  { st with connections := fun k => if k = sid then none else st.connections k }

/-- Lines 966-967 of `send` (the queueing fallback):
`q = self._queues.setdefault(session_id, asyncio.Queue()); await q.put(payload)` —
append to the session's queue, creating it if absent. -/
def enqueue (st : ChanState) (sid : String) (p : OutPayload) : ChanState :=
  { st with
    queues := fun k =>
      if k = sid then some ((st.queues sid).getD [] ++ [p]) else st.queues k }

/-- One iteration of the `_drain` loop (lines 822-829) on a transport
write that succeeds: `payload = await q.get()` takes the front of the
session's queue and `websocket.send_text(payload)` delivers it.  Returns
the delivered payload and the new state, or `none` when the queue is
empty or absent (the loop suspends in `q.get()`). -/
def drainStep (st : ChanState) (sid : String) : Option (OutPayload × ChanState) :=
  match st.queues sid with
  | some (p :: rest) =>
      some (p, { st with
        queues := fun k => if k = sid then some rest else st.queues k })
  | _ => none

/-- Run the `_drain` loop for at most `fuel` iterations with a transport
that accepts every write, collecting the payloads delivered to the
client in order. -/
def drainRun (st : ChanState) (sid : String) : Nat → List OutPayload
  | 0 => []
  | fuel + 1 =>
      match drainStep st sid with
      | none => []
      | some (p, st') => p :: drainRun st' sid fuel

/-- Enqueue a list of payloads for a session, in order. -/
def enqueueAll (st : ChanState) (sid : String) (ps : List OutPayload) : ChanState :=
  ps.foldl (fun s p => enqueue s sid p) st

-- ---------------------------------------------------------------------
-- Registry and queue lemmas
-- ---------------------------------------------------------------------

theorem wsConnect_connections (st : ChanState) (sid : String) (h : Nat) :
    (wsConnect st sid h).connections sid = some h := by
  simp [wsConnect]

theorem wsTeardown_connections (st : ChanState) (sid : String) (h : Nat) :
    (wsTeardown st sid h).connections sid = none := by
  simp [wsTeardown]

theorem wsTeardown_queues (st : ChanState) (sid : String) (h : Nat) :
    (wsTeardown st sid h).queues = st.queues := rfl

theorem enqueue_queues_self (st : ChanState) (sid : String) (p : OutPayload) :
    (enqueue st sid p).queues sid = some ((st.queues sid).getD [] ++ [p]) := by
  simp [enqueue]

theorem enqueueAll_queues (sid : String) (ps : List OutPayload) :
    ∀ (st : ChanState) (q : List OutPayload), st.queues sid = some q →
      (enqueueAll st sid ps).queues sid = some (q ++ ps) := by
  induction ps with
  | nil => intro st q hq; simpa [enqueueAll] using hq
  | cons p ps ih =>
      intro st q hq
      have hstep : (enqueue st sid p).queues sid = some (q ++ [p]) := by
        rw [enqueue_queues_self, hq]; rfl
      have := ih (enqueue st sid p) (q ++ [p]) hstep
      simpa [enqueueAll, List.append_assoc] using this

theorem wsConnect_queues_some (st : ChanState) (sid : String) (h : Nat)
    (q : List OutPayload) (hq : st.queues sid = some q) :
    (wsConnect st sid h).queues sid = some q := by
  simp [wsConnect, hq]

theorem drainRun_delivers (sid : String) :
    ∀ (q : List OutPayload) (st : ChanState) (fuel : Nat),
      st.queues sid = some q → q.length ≤ fuel → drainRun st sid fuel = q := by
  intro q
  induction q with
  | nil =>
      intro st fuel hq _
      cases fuel with
      | zero => rfl
      | succ n => simp [drainRun, drainStep, hq]
  | cons p rest ih =>
      intro st fuel hq hlen
      cases fuel with
      | zero => exact absurd hlen (by simp)
      | succ n =>
          have hstep : drainStep st sid =
              some (p, { st with
                queues := fun k => if k = sid then some rest else st.queues k }) := by
            simp [drainStep, hq]
          have hrest :
              ({ st with
                queues := fun k =>
                  if k = sid then some rest else st.queues k } : ChanState).queues sid
                = some rest := by simp
          simp only [drainRun, hstep]
          rw [ih _ n hrest (by simpa using hlen)]

-- ---------------------------------------------------------------------
-- C1
-- ---------------------------------------------------------------------

/-- C1 (as stated) is false on the code: register H1 = 1 for "S", then
H2 = 2 (reconnect); lookups return H2; but when the stale handle H1's
receive loop ends, its `finally` block pops the registry entry
unconditionally, so after H1's teardown the lookup returns nothing — not
H2 as the claim requires. -/
theorem c1_stale_teardown_evicts :
    (wsTeardown (wsConnect (wsConnect initialState "S" 1) "S" 2) "S" 1).connections "S"
      = none ∧
    (wsConnect (wsConnect initialState "S" 1) "S" 2).connections "S" = some 2 := by
  constructor <;> rfl

/-- C1 (amended): registering H2 for a session already holding H1 makes
lookups return H2, but unregistration on disconnect is unconditional
(`connections.pop(session_id, None)` never compares handles), so ANY
teardown for the session — in particular the stale H1's — clears the
registry entry even while H2 is connected. -/
theorem c1_register_replaces_unregister_unconditional
    (st : ChanState) (sid : String) (h1 h2 hDis : Nat) :
    (wsConnect (wsConnect st sid h1) sid h2).connections sid = some h2 ∧
    (wsTeardown (wsConnect (wsConnect st sid h1) sid h2) sid hDis).connections sid
      = none := by
  exact ⟨wsConnect_connections _ _ _, wsTeardown_connections _ _ _⟩

-- ---------------------------------------------------------------------
-- C2
-- ---------------------------------------------------------------------

/-- C2: payloads P1..Pn enqueued for session `sid` (starting from a state
where `sid`'s queue is absent or empty — in particular while
disconnected) are not dropped by a connection teardown: the queues map
survives the teardown unchanged, and after a (re)connect a drain loop
delivers exactly P1..Pn in enqueue order. -/
theorem c2_queue_survives_and_drains_in_order
    (st : ChanState) (sid : String) (hOld hNew : Nat) (ps : List OutPayload)
    (hq : st.queues sid = none ∨ st.queues sid = some []) :
    (wsTeardown (enqueueAll st sid ps) sid hOld).queues = (enqueueAll st sid ps).queues ∧
    drainRun (wsConnect (wsTeardown (enqueueAll st sid ps) sid hOld) sid hNew)
      sid ps.length = ps := by
  refine ⟨rfl, ?_⟩
  have hfold : (enqueueAll st sid ps).queues sid = some ps ∨
      ((enqueueAll st sid ps).queues sid = none ∧ ps = []) := by
    rcases hq with hnone | hempty
    · cases ps with
      | nil => exact Or.inr ⟨by simpa [enqueueAll] using hnone, rfl⟩
      | cons p rest =>
          left
          have hfirst : (enqueue st sid p).queues sid = some [p] := by
            rw [enqueue_queues_self, hnone]; rfl
          have := enqueueAll_queues sid rest (enqueue st sid p) [p] hfirst
          simpa [enqueueAll] using this
    · exact Or.inl (by simpa using enqueueAll_queues sid ps st [] hempty)
  rcases hfold with hsome | ⟨hnone, hnil⟩
  · have hq2 : (wsTeardown (enqueueAll st sid ps) sid hOld).queues sid = some ps := by
      rw [wsTeardown_queues]; exact hsome
    have hq3 := wsConnect_queues_some _ sid hNew ps hq2
    exact drainRun_delivers sid ps _ ps.length hq3 le_rfl
  · subst hnil; rfl

/-- Witness for C2: from the empty initial state, enqueue `typing` then
`message "hi"` for session "S" while disconnected, tear down a stale
connection, reconnect, and the drain loop delivers `typing` then
`message "hi"` in that order. -/
theorem c2_witness :
    (initialState.queues "S" = none ∨ initialState.queues "S" = some []) ∧
    ((wsTeardown (enqueueAll initialState "S"
        [OutPayload.typing, OutPayload.message "hi" [] false false]) "S" 1).queues
      = (enqueueAll initialState "S"
        [OutPayload.typing, OutPayload.message "hi" [] false false]).queues ∧
    drainRun (wsConnect (wsTeardown (enqueueAll initialState "S"
        [OutPayload.typing, OutPayload.message "hi" [] false false]) "S" 1) "S" 2)
      "S" 2 = [OutPayload.typing, OutPayload.message "hi" [] false false]) :=
  ⟨Or.inl rfl,
   c2_queue_survives_and_drains_in_order initialState "S" 1 2
     [OutPayload.typing, OutPayload.message "hi" [] false false] (Or.inl rfl)⟩

-- ---------------------------------------------------------------------
-- String helpers (Python str / pathlib operations on code points)
-- ---------------------------------------------------------------------

/-- Helper for Python `s.startswith(pre)` on the code-point lists. -/
def startsWithChars : List Char → List Char → Bool
  | [], _ => true
  | _ :: _, [] => false
  | a :: pre, b :: s => a = b && startsWithChars pre s

/-- Python `s.startswith(pre)`. -/
def pyStartsWith (s pre : String) : Bool :=
  startsWithChars pre.data s.data

/-- Python slicing `s[n:]` on code points. -/
def pyDrop (s : String) (n : Nat) : String :=
  String.mk (s.data.drop n)

/-- Python `str(Path(dir) / name)` for a `dir` without a trailing slash and a
`name` without `"."` components: an empty `name` leaves `dir` unchanged,
an absolute `name` replaces `dir` (pathlib semantics), anything else is
joined with a single separator. -/
def pathJoin (dir name : String) : String :=
  if name = "" then dir
  else if pyStartsWith name "/" then name
  else dir ++ "/" ++ name

/-- Python `PurePosixPath(s).name`: the final path component, with trailing
separators ignored (for paths without `"."` components). -/
def basename (s : String) : String :=
  String.mk
    (((s.data.reverse.dropWhile (fun c => c = '/')).takeWhile
      (fun c => ¬ c = '/')).reverse)

theorem startsWithChars_append (pre rest : List Char) :
    startsWithChars pre (pre ++ rest) = true := by
  induction pre with
  | nil => rfl
  | cons a pre ih => simp [startsWithChars, ih]

theorem pyStartsWith_append (pre rest : String) :
    pyStartsWith (pre ++ rest) pre = true := by
  have : (pre ++ rest).data = pre.data ++ rest.data := rfl
  simp [pyStartsWith, this, startsWithChars_append]

-- ---------------------------------------------------------------------
-- Media bridge: upload endpoint
-- ---------------------------------------------------------------------

/-- The response of the `/upload` route: either
`JSONResponse({"error": "File too large"}, status_code=413)` or
`JSONResponse({"url": f"/uploads/{file.filename}", "name": file.filename})`. -/
inductive UploadResponse where
  | tooLarge
  | ok (url name : String)
deriving DecidableEq, Repr

/-- Line 760: `max_bytes = self.config.max_upload_size_mb * 1024 * 1024`. -/
def maxUploadBytes (mb : Nat) : Nat := mb * 1024 * 1024

/-- The `/upload` route (lines 770-781).  The upload root's contents are
embedded as a map from filename to stored bytes (`files`); `data` is the
fully-read request body.  Oversize bodies are rejected with 413 and the
store is returned unchanged; otherwise the bytes are written to
`upload_dir / filename`, overwriting any existing entry, and the served
URL and name are returned. -/
def upload (maxBytes : Nat) (files : String → Option (List Nat))
    (filename : String) (data : List Nat) :
    (String → Option (List Nat)) × UploadResponse :=
  if data.length > maxBytes then (files, UploadResponse.tooLarge)
  else
    (fun k => if k = filename then some data else files k,
     UploadResponse.ok ("/uploads/" ++ filename) filename)

-- ---------------------------------------------------------------------
-- Media bridge: download endpoint
-- ---------------------------------------------------------------------

/-- The response of the `/uploads/{fname}` route: `HTTPException(404)` or
a `FileResponse` with a media type and either inline disposition
(`inline = true`, no extra header) or a
`Content-Disposition: attachment` header (`inline = false`). -/
inductive ServeResponse where
  | notFound
  | file (path mime : String) (inline : Bool)
deriving DecidableEq, Repr

/-- Lines 784-785: the renderable MIME kinds of the source. -/
def inlineMimeKinds : List String :=
  ["image/", "video/", "audio/", "text/html", "application/pdf"]

/-- Line 808: `inline = any(mime.startswith(p) for p in ...)`. -/
def rendersInline (mime : String) : Bool :=
  inlineMimeKinds.any (fun p => pyStartsWith mime p)

/-- The `/uploads/{fname}` route (lines 787-810), with the extension →
MIME table of the external `mimetypes` library abstracted as `guess`:
404 when the file is absent from the upload root; otherwise the MIME
type is the guess with `"application/octet-stream"` as fallback, and the
file is served inline exactly when the MIME type starts with one of the
renderable kinds. -/
def serve_uploaded_file (guess : String → Option String) (uploadDir : String)
    (files : String → Option (List Nat)) (fname : String) : ServeResponse :=
  match files fname with
  | none => ServeResponse.notFound
  | some _ =>
      let mime := (guess fname).getD "application/octet-stream"
      ServeResponse.file (pathJoin uploadDir fname) mime (rendersInline mime)

/-- The lowercased extension after the last `.` of a filename (empty when
the name has no `.`), as used by the `mimetypes` table lookup. -/
def fileExt (s : String) : String :=
  let revTail := s.data.reverse.takeWhile (fun c => ¬ c = '.')
  if revTail.length = s.data.length then ""
  else String.mk (revTail.reverse.map Char.toLower)

/-- Modelled from the Python standard library `mimetypes.guess_type`
(an external collaborator of the source), restricted to common
extensions; unknown extensions guess nothing. -/
def guessMimeCommon (fname : String) : Option String :=
  match fileExt fname with
  | "png" => some "image/png"
  | "jpg" => some "image/jpeg"
  | "jpeg" => some "image/jpeg"
  | "gif" => some "image/gif"
  | "mp4" => some "video/mp4"
  | "mp3" => some "audio/mpeg"
  | "wav" => some "audio/x-wav"
  | "html" => some "text/html"
  | "pdf" => some "application/pdf"
  | "zip" => some "application/zip"
  | "csv" => some "text/csv"
  | "txt" => some "text/plain"
  | _ => none

-- ---------------------------------------------------------------------
-- Media bridge: outbound resolution (bus → client), from `send`
-- ---------------------------------------------------------------------

/-- Line 933: `item.startswith(("http://", "https://", "/uploads/"))`. -/
def isPassThroughUrl (item : String) : Bool :=
  pyStartsWith item "http://" || pyStartsWith item "https://" ||
    pyStartsWith item "/uploads/"

/-- The operator-facing warning of line 944-945. -/
def mediaNotFoundWarning (item : String) : String :=
  "WebChat: media not found or not a file: " ++ item

/-- Result of the outbound media loop: the resolved URL list, the
(source, destination) pairs copied into the upload root, and the
operator warnings emitted. -/
structure OutboundResolution where
  mediaUrls : List String
  copies : List (String × String)
  warnings : List String
deriving DecidableEq, Repr

/-- The outbound media loop of `send` (lines 929-945).  `isFile item`
embeds `Path(item).exists() and Path(item).is_file()` ("is an existing
regular file").  Empty items are skipped (`if not item: continue`);
pass-through URLs are kept unchanged; existing regular files are copied
to `upload_dir / basename` and replaced by `/uploads/<basename>`; all
other items are dropped with a warning. -/
def resolveOutboundMedia (isFile : String → Bool) (uploadDir : String) :
    List String → OutboundResolution
  | [] => ⟨[], [], []⟩
  | item :: rest =>
      let r := resolveOutboundMedia isFile uploadDir rest
      if item = "" then r
      else if isPassThroughUrl item then
        ⟨item :: r.mediaUrls, r.copies, r.warnings⟩
      else if isFile item then
        ⟨("/uploads/" ++ basename item) :: r.mediaUrls,
         (item, pathJoin uploadDir (basename item)) :: r.copies, r.warnings⟩
      else ⟨r.mediaUrls, r.copies, mediaNotFoundWarning item :: r.warnings⟩

/-- An outbound bus message as consumed by `send`: `chat_id`, `content`,
media references (`msg.media or []`), and the truthiness of the
`_progress` / `_tool_hint` metadata keys (lines 949-950). -/
structure OutboundMessage where
  chat_id : String
  content : String
  media : List String
  progressFlag : Bool
  toolHintFlag : Bool

/-- The `send` method (lines 923-968): resolve the media, build the `message`
payload, try a direct websocket write when a connection is registered
(`writeOk` embeds whether `send_text` succeeds); on write failure pop the
connection and fall through; with no usable connection, enqueue the
payload.  Returns the new state, the directly delivered payload (if
any), and the media resolution. -/
def sendMsg (isFile : String → Bool) (uploadDir : String) (writeOk : Bool)
    (st : ChanState) (msg : OutboundMessage) :
    ChanState × Option OutPayload × OutboundResolution :=
  let r := resolveOutboundMedia isFile uploadDir msg.media
  let payload := OutPayload.message msg.content r.mediaUrls
    msg.progressFlag msg.toolHintFlag
  match st.connections msg.chat_id with
  | some _ =>
      if writeOk then (st, some payload, r)
      else
        (enqueue
          { st with connections :=
              fun k => if k = msg.chat_id then none else st.connections k }
          msg.chat_id payload, none, r)
  | none => (enqueue st msg.chat_id payload, none, r)

-- ---------------------------------------------------------------------
-- C3
-- ---------------------------------------------------------------------

/-- C3: an upload strictly larger than `max_upload_size_mb * 1024 * 1024`
bytes is rejected with the oversize response and the upload root is left
exactly as it was (no full or partial file); an upload at or under the
limit stores the bytes at the declared filename (overwriting any
existing entry, all other entries untouched) and returns the served URL
`/uploads/<filename>` together with the name. -/
theorem c3_upload_size_enforcement (mb : Nat)
    (files : String → Option (List Nat)) (filename : String) (data : List Nat) :
    (data.length > maxUploadBytes mb →
      upload (maxUploadBytes mb) files filename data
        = (files, UploadResponse.tooLarge)) ∧
    (data.length ≤ maxUploadBytes mb →
      (upload (maxUploadBytes mb) files filename data).2
          = UploadResponse.ok ("/uploads/" ++ filename) filename ∧
      (upload (maxUploadBytes mb) files filename data).1 filename = some data ∧
      ∀ k, k ≠ filename →
        (upload (maxUploadBytes mb) files filename data).1 k = files k) := by
  constructor
  · intro hgt
    simp [upload, hgt]
  · intro hle
    have hnot : ¬ data.length > maxUploadBytes mb := Nat.not_lt.mpr hle
    refine ⟨?_, ?_, ?_⟩
    · simp [upload, hnot]
    · simp [upload, hnot]
    · intro k hk
      simp [upload, hnot, hk]

/-- Witness for C3: with a 1 MiB limit, a 2 MiB body is rejected and the
(empty) upload root is unchanged, and a 3-byte body is stored and
answered with its served URL. -/
theorem c3_witness :
    ((List.replicate 2097152 (0 : Nat)).length > maxUploadBytes 1 ∧
      upload (maxUploadBytes 1) (fun _ => none) "big.bin"
          (List.replicate 2097152 (0 : Nat))
        = ((fun _ => none), UploadResponse.tooLarge)) ∧
    (([1, 2, 3] : List Nat).length ≤ maxUploadBytes 1 ∧
      (upload (maxUploadBytes 1) (fun _ => none) "photo.png" [1, 2, 3]).2
        = UploadResponse.ok "/uploads/photo.png" "photo.png" ∧
      (upload (maxUploadBytes 1) (fun _ => none) "photo.png" [1, 2, 3]).1 "photo.png"
        = some [1, 2, 3]) := by
  have hbig : (List.replicate 2097152 (0 : Nat)).length > maxUploadBytes 1 := by
    rw [List.length_replicate]
    norm_num [maxUploadBytes]
  have hsmall : ([1, 2, 3] : List Nat).length ≤ maxUploadBytes 1 := by
    norm_num [maxUploadBytes]
  refine ⟨⟨hbig, ?_⟩, hsmall, ?_, ?_⟩
  · exact (c3_upload_size_enforcement 1 (fun _ => none) "big.bin"
      (List.replicate 2097152 (0 : Nat))).1 hbig
  · exact ((c3_upload_size_enforcement 1 (fun _ => none) "photo.png" [1, 2, 3]).2
      hsmall).1
  · exact ((c3_upload_size_enforcement 1 (fun _ => none) "photo.png" [1, 2, 3]).2
      hsmall).2.1

-- ---------------------------------------------------------------------
-- C5
-- ---------------------------------------------------------------------

/-- C5: a download of an absent filename is a not-found error; an
existing file is served with the MIME type guessed from its name
(falling back to `application/octet-stream` when the guess yields
nothing), with inline disposition exactly when the MIME type starts with
one of `image/`, `video/`, `audio/`, `text/html`, `application/pdf`, and
with an attachment disposition otherwise. -/
theorem c5_serve_classification (guess : String → Option String)
    (uploadDir : String) (files : String → Option (List Nat)) (fname : String) :
    (files fname = none →
      serve_uploaded_file guess uploadDir files fname = ServeResponse.notFound) ∧
    (∀ data, files fname = some data →
      serve_uploaded_file guess uploadDir files fname
        = ServeResponse.file (pathJoin uploadDir fname)
            ((guess fname).getD "application/octet-stream")
            (rendersInline ((guess fname).getD "application/octet-stream"))) ∧
    (∀ mime, rendersInline mime = true ↔
      (pyStartsWith mime "image/" = true ∨ pyStartsWith mime "video/" = true ∨
       pyStartsWith mime "audio/" = true ∨ pyStartsWith mime "text/html" = true ∨
       pyStartsWith mime "application/pdf" = true)) := by
  refine ⟨?_, ?_, ?_⟩
  · intro hnone
    simp [serve_uploaded_file, hnone]
  · intro data hdata
    simp [serve_uploaded_file, hdata]
  · intro mime
    simp [rendersInline, inlineMimeKinds]

/-- Witness for C5: with the common `mimetypes` table and a store holding
`photo.png` and `archive.zip`, `photo.png` is served inline as
`image/png`, `archive.zip` is served as an `application/zip` attachment,
and the absent `nope.bin` yields the not-found error. -/
theorem c5_witness :
    ((fun n => if n = "photo.png" then some [1] else
        if n = "archive.zip" then some [2] else none : String → Option (List Nat))
        "photo.png" = some [1] ∧
      serve_uploaded_file guessMimeCommon "/media"
        (fun n => if n = "photo.png" then some [1] else
          if n = "archive.zip" then some [2] else none) "photo.png"
        = ServeResponse.file "/media/photo.png" "image/png" true) ∧
    (serve_uploaded_file guessMimeCommon "/media"
        (fun n => if n = "photo.png" then some [1] else
          if n = "archive.zip" then some [2] else none) "archive.zip"
        = ServeResponse.file "/media/archive.zip" "application/zip" false) ∧
    (serve_uploaded_file guessMimeCommon "/media"
        (fun n => if n = "photo.png" then some [1] else
          if n = "archive.zip" then some [2] else none) "nope.bin"
        = ServeResponse.notFound) := by
  refine ⟨⟨rfl, ?_⟩, ?_, ?_⟩
  · have h := (c5_serve_classification guessMimeCommon "/media"
      (fun n => if n = "photo.png" then some [1] else
        if n = "archive.zip" then some [2] else none) "photo.png").2.1 [1] rfl
    exact h.trans (by decide)
  · have h := (c5_serve_classification guessMimeCommon "/media"
      (fun n => if n = "photo.png" then some [1] else
        if n = "archive.zip" then some [2] else none) "archive.zip").2.1 [2] rfl
    exact h.trans (by decide)
  · exact (c5_serve_classification guessMimeCommon "/media"
      (fun n => if n = "photo.png" then some [1] else
        if n = "archive.zip" then some [2] else none) "nope.bin").1 rfl

-- ---------------------------------------------------------------------
-- C6
-- ---------------------------------------------------------------------

theorem resolveOutboundMedia_mediaUrls (isFile : String → Bool) (uploadDir : String) :
    ∀ items : List String,
      (resolveOutboundMedia isFile uploadDir items).mediaUrls
        = items.filterMap (fun item =>
            if item = "" then none
            else if isPassThroughUrl item then some item
            else if isFile item then some ("/uploads/" ++ basename item)
            else none) := by
  intro items
  induction items with
  | nil => rfl
  | cons item rest ih =>
      by_cases h0 : item = ""
      · simp [resolveOutboundMedia, h0, ih]
      · by_cases h1 : isPassThroughUrl item
        · simp [resolveOutboundMedia, h0, h1, ih]
        · by_cases h2 : isFile item
          · simp [resolveOutboundMedia, h0, h1, h2, ih]
          · simp [resolveOutboundMedia, h0, h1, h2, ih]

theorem resolveOutboundMedia_warnings (isFile : String → Bool) (uploadDir : String) :
    ∀ items : List String,
      (resolveOutboundMedia isFile uploadDir items).warnings
        = (items.filter (fun item =>
            !(item == "") && !isPassThroughUrl item && !isFile item)).map
            mediaNotFoundWarning := by
  intro items
  induction items with
  | nil => rfl
  | cons item rest ih =>
      by_cases h0 : item = ""
      · simp [resolveOutboundMedia, h0, ih]
      · by_cases h1 : isPassThroughUrl item
        · simp [resolveOutboundMedia, h0, h1, ih]
        · by_cases h2 : isFile item
          · simp [resolveOutboundMedia, h0, h1, h2, ih]
          · simp [resolveOutboundMedia, h0, h1, h2, ih]

theorem resolveOutboundMedia_copies (isFile : String → Bool) (uploadDir : String) :
    ∀ items : List String,
      (resolveOutboundMedia isFile uploadDir items).copies
        = (items.filter (fun item =>
            !(item == "") && !isPassThroughUrl item && isFile item)).map
            (fun item => (item, pathJoin uploadDir (basename item))) := by
  intro items
  induction items with
  | nil => rfl
  | cons item rest ih =>
      by_cases h0 : item = ""
      · simp [resolveOutboundMedia, h0, ih]
      · by_cases h1 : isPassThroughUrl item
        · simp [resolveOutboundMedia, h0, h1, ih]
        · by_cases h2 : isFile item
          · simp [resolveOutboundMedia, h0, h1, h2, ih]
          · simp [resolveOutboundMedia, h0, h1, h2, ih]

/-- C6 (as stated) is false on the code: an empty-string media reference
(which is neither an external URL, nor a served-upload URL, nor an
existing regular file) is skipped by `if not item: continue` BEFORE the
not-found branch, so it is omitted from the outbound list with NO
operator warning, while the claim requires a warning for every omitted
reference. -/
theorem c6_counterexample :
    isPassThroughUrl "" = false ∧
    (fun _ => false : String → Bool) "" = false ∧
    (resolveOutboundMedia (fun _ => false) "/media" [""]).mediaUrls = [] ∧
    (resolveOutboundMedia (fun _ => false) "/media" [""]).warnings = [] :=
  ⟨rfl, rfl, rfl, rfl⟩

/-- C6 (amended): in `send`, each media reference that is an external
URL (`http://`, `https://`) or a served-upload URL (`/uploads/`) passes
through unchanged; each reference that is an existing regular file is
copied into the upload root preserving its filename and replaced by
`/uploads/<filename>`; each NON-EMPTY reference whose path does not
exist or is not a regular file is omitted with an operator warning,
while empty references are omitted silently with no warning; and the
message payload itself (with the resolved media list) is still
delivered — written directly to the live socket or appended to the
session's queue. -/
theorem c6_send_media_resolution (isFile : String → Bool) (uploadDir : String)
    (writeOk : Bool) (st : ChanState) (msg : OutboundMessage) :
    (resolveOutboundMedia isFile uploadDir msg.media).mediaUrls
      = msg.media.filterMap (fun item =>
          if item = "" then none
          else if isPassThroughUrl item then some item
          else if isFile item then some ("/uploads/" ++ basename item)
          else none) ∧
    (resolveOutboundMedia isFile uploadDir msg.media).warnings
      = (msg.media.filter (fun item =>
          !(item == "") && !isPassThroughUrl item && !isFile item)).map
          mediaNotFoundWarning ∧
    (resolveOutboundMedia isFile uploadDir msg.media).copies
      = (msg.media.filter (fun item =>
          !(item == "") && !isPassThroughUrl item && isFile item)).map
          (fun item => (item, pathJoin uploadDir (basename item))) ∧
    ((sendMsg isFile uploadDir writeOk st msg).2.1
        = some (OutPayload.message msg.content
            (resolveOutboundMedia isFile uploadDir msg.media).mediaUrls
            msg.progressFlag msg.toolHintFlag) ∨
      (sendMsg isFile uploadDir writeOk st msg).1.queues msg.chat_id
        = some ((st.queues msg.chat_id).getD [] ++
            [OutPayload.message msg.content
              (resolveOutboundMedia isFile uploadDir msg.media).mediaUrls
              msg.progressFlag msg.toolHintFlag])) := by
  refine ⟨resolveOutboundMedia_mediaUrls isFile uploadDir msg.media,
    resolveOutboundMedia_warnings isFile uploadDir msg.media,
    resolveOutboundMedia_copies isFile uploadDir msg.media, ?_⟩
  cases hc : st.connections msg.chat_id with
  | none =>
      right
      simp [sendMsg, hc, enqueue]
  | some h =>
      cases writeOk with
      | true => left; simp [sendMsg, hc]
      | false =>
          right
          simp [sendMsg, hc, enqueue]

/-- Concrete check of the outbound resolution on a mixed media list:
a pass-through URL is kept, `/tmp/pic.png` (the only existing regular
file) is copied to `/media/pic.png` and replaced by its served URL, and
the missing `/tmp/missing.bin` is dropped with exactly one warning. -/
theorem resolveOutboundMedia_example :
    resolveOutboundMedia (fun s => s == "/tmp/pic.png") "/media"
        ["http://x/y", "/tmp/pic.png", "/tmp/missing.bin"]
      = ⟨["http://x/y", "/uploads/pic.png"],
         [("/tmp/pic.png", "/media/pic.png")],
         ["WebChat: media not found or not a file: /tmp/missing.bin"]⟩ := by
  decide

-- ---------------------------------------------------------------------
-- Inbound frame handler (`_on_ws_message`, lines 848-886)
-- ---------------------------------------------------------------------

/-- The whitespace characters stripped by Python `str.strip()` on ASCII
content. -/
def isPySpace (c : Char) : Bool :=
  c = ' ' || c = '\t' || c = '\n' || c = '\r' || c = '\x0b' || c = '\x0c'

/-- Python `str.strip()`: drop whitespace from the front, then from the
back, of the code-point list. -/
def stripChars (l : List Char) : List Char :=
  (l.dropWhile isPySpace).rdropWhile isPySpace

/-- Python `s.strip()` for a string of ASCII-whitespace-delimited
content. -/
def pyStrip (s : String) : String :=
  String.mk (stripChars s.data)

/-- An inbound frame as read by `_on_ws_message` after `json.loads`:
each field the handler touches is either absent-or-null (`none`) or a
value of its declared type.  `data.get("type", "message")` is
`type.getD "message"`; `data.get("content") or ""` is
`content.getD ""` (an explicit empty string is falsy in Python and
also yields `""`); `data.get("media") or []` is `media.getD []`
(likewise for an explicit empty list). -/
structure InFrame where
  type : Option String
  content : Option String
  media : Option (List String)
deriving DecidableEq, Repr

/-- Inbound media resolution (lines 874-879): a URL starting with
`/uploads/` is mapped to `str(self._upload_dir / url[len("/uploads/"):])`;
every other URL passes through unchanged. -/
def resolveInboundUrl (uploadDir url : String) : String :=
  if pyStartsWith url "/uploads/" then
    pathJoin uploadDir (pyDrop url (String.length "/uploads/"))
  else url

/-- An observable action of the inbound handler: a frame written
directly to this connection's socket (`ok` records whether the
`send_text` succeeded), the media-resolution pass, or the handoff of
the normalized tuple to `self._handle_message` (the bus collaborator). -/
inductive WsEvent where
  | directSend (p : OutPayload) (ok : Bool)
  | resolveMedia (input resolved : List String)
  | busHandoff (sender chat content : String) (media : List String)
deriving DecidableEq, Repr

/-- The `_on_ws_message` handler (lines 848-886), as the ordered list of observable
actions it performs.  `raw = none` embeds a body on which `json.loads`
raises (the handler returns at line 855).  `conn` is
`self._connections.get(session_id)`; when a connection is registered the
reaction acknowledgement `{"type": "reaction", "emoji": "👍"}` is
attempted on it first, `ackOk` recording whether that `send_text`
succeeded — a failure is swallowed by `except Exception: pass` and the
handler continues either way.  Then the media list is resolved and the
normalized `{sender_id, chat_id, content, media}` tuple (both ids equal
to the session id) is handed to the bus. -/
def onWsMessage (uploadDir sid : String) (conn : Option Nat) (ackOk : Bool) :
    Option InFrame → List WsEvent
  | none => []
  | some data =>
      let msgType := data.type.getD "message"
      if msgType ≠ "message" then []
      else
        let content := pyStrip (data.content.getD "")
        let media := data.media.getD []
        let ackEvents : List WsEvent :=
          match conn with
          | some _ => [WsEvent.directSend (OutPayload.reaction "👍") ackOk]
          | none => []
        let resolved := media.map (resolveInboundUrl uploadDir)
        ackEvents ++ [WsEvent.resolveMedia media resolved,
          WsEvent.busHandoff sid sid content resolved]

/-- One frame arriving on the receive loop (lines 834-836): the loop
calls `_on_ws_message` and, since that handler returns normally on every
modeled input, awaits the next frame — the handler mutates neither the
connection registry nor the queues, so the state is returned unchanged. -/
def wsFrameStep (uploadDir : String) (st : ChanState) (sid : String)
    (ackOk : Bool) (raw : Option InFrame) : ChanState × List WsEvent :=
  (st, onWsMessage uploadDir sid (st.connections sid) ackOk raw)

-- ---------------------------------------------------------------------
-- C8
-- ---------------------------------------------------------------------

/-- C8: a frame whose declared `type` is present and is not `"message"`
(e.g. `"ping"`) is dropped silently — the handler performs no action at
all (no bus handoff, no reaction acknowledgement, no frame of any kind
sent back) and leaves the channel state untouched, so the connection
stays registered and open. -/
theorem c8_unrecognized_type_dropped (uploadDir : String) (st : ChanState)
    (sid : String) (ackOk : Bool) (f : InFrame) (t : String)
    (ht : f.type = some t) (hne : t ≠ "message") :
    wsFrameStep uploadDir st sid ackOk (some f) = (st, []) := by
  simp [wsFrameStep, onWsMessage, ht, hne]

/-- Witness for C8: a connected session "S" receiving
`{type: "ping", content: "hi"}` produces no events and an unchanged
state. -/
theorem c8_witness :
    (InFrame.mk (some "ping") (some "hi") none).type = some "ping" ∧
    ("ping" : String) ≠ "message" ∧
    wsFrameStep "/media" (wsConnect initialState "S" 1) "S" true
        (some (InFrame.mk (some "ping") (some "hi") none))
      = (wsConnect initialState "S" 1, []) :=
  ⟨rfl, by decide,
    c8_unrecognized_type_dropped "/media" (wsConnect initialState "S" 1) "S"
      true (InFrame.mk (some "ping") (some "hi") none) "ping" rfl (by decide)⟩

-- ---------------------------------------------------------------------
-- C4
-- ---------------------------------------------------------------------

/-- C4 (as stated) is false on the code: a frame missing BOTH the type
field and the content field (`{}` after `json.loads`) is NOT discarded —
`data.get("type", "message")` defaults the missing type to `"message"`,
so the handler acknowledges it and forwards a message with empty content
and empty media to the bus. -/
theorem c4_counterexample :
    onWsMessage "/media" "S" (some 1) true (some (InFrame.mk none none none))
      = [WsEvent.directSend (OutPayload.reaction "👍") true,
         WsEvent.resolveMedia [] [],
         WsEvent.busHandoff "S" "S" "" []] ∧
    (onWsMessage "/media" "S" (some 1) true
        (some (InFrame.mk none none none))).any
      (fun e => match e with
        | WsEvent.busHandoff _ _ _ _ => true
        | _ => false) = true := by
  constructor <;> decide

theorem onWsMessage_no_error_frame (uploadDir sid : String) (conn : Option Nat)
    (ackOk : Bool) (raw : Option InFrame) :
    ∀ e ∈ onWsMessage uploadDir sid conn ackOk raw,
      ∀ c ok, e ≠ WsEvent.directSend (OutPayload.error c) ok := by
  intro e he c ok
  cases raw with
  | none => simp [onWsMessage] at he
  | some f =>
      by_cases ht : f.type.getD "message" ≠ "message"
      · simp [onWsMessage, ht] at he
      · cases hc : conn with
        | none =>
            simp [onWsMessage, ht, hc] at he
            rcases he with he | he <;> simp [he]
        | some h =>
            simp [onWsMessage, ht, hc] at he
            rcases he with he | he | he <;> simp [he]

/-- C4 (amended): an inbound body on which JSON parsing fails is
silently discarded.  A parsed frame missing the `type` field is NOT
discarded: the missing type defaults to `"message"` and the frame is
forwarded to the bus, its missing content defaulting to the empty
string and its missing media to the empty list.  Only frames whose
declared type is present and differs from `"message"` are discarded.
In every case no error frame is sent back and the handler leaves the
channel state (and hence the registered connection) untouched. -/
theorem c4_missing_fields_forwarded (uploadDir sid : String) (st : ChanState)
    (ackOk : Bool) :
    (wsFrameStep uploadDir st sid ackOk none = (st, [])) ∧
    (∀ f : InFrame, f.type = none →
      (wsFrameStep uploadDir st sid ackOk (some f)).2
        = (match st.connections sid with
            | some _ => [WsEvent.directSend (OutPayload.reaction "👍") ackOk]
            | none => []) ++
          [WsEvent.resolveMedia (f.media.getD [])
            ((f.media.getD []).map (resolveInboundUrl uploadDir)),
           WsEvent.busHandoff sid sid (pyStrip (f.content.getD ""))
            ((f.media.getD []).map (resolveInboundUrl uploadDir))]) ∧
    (∀ f : InFrame, ∀ t, f.type = some t → t ≠ "message" →
      (wsFrameStep uploadDir st sid ackOk (some f)).2 = []) ∧
    (∀ raw : Option InFrame, (wsFrameStep uploadDir st sid ackOk raw).1 = st) ∧
    (∀ raw : Option InFrame,
      ∀ e ∈ (wsFrameStep uploadDir st sid ackOk raw).2,
        ∀ c ok, e ≠ WsEvent.directSend (OutPayload.error c) ok) := by
  refine ⟨rfl, ?_, ?_, fun _ => rfl, ?_⟩
  · intro f hf
    cases hc : st.connections sid with
    | none => simp [wsFrameStep, onWsMessage, hf, hc]
    | some h => simp [wsFrameStep, onWsMessage, hf, hc]
  · intro f t ht hne
    simp [wsFrameStep, onWsMessage, ht, hne]
  · intro raw
    exact onWsMessage_no_error_frame uploadDir sid (st.connections sid) ackOk raw

/-- Witness for C4 (amended): for the parsed empty frame `{}` on a
connected session, the type-missing hypothesis is discharged and the
frame is forwarded with empty content and media. -/
theorem c4_witness :
    (InFrame.mk none none none).type = none ∧
    (wsFrameStep "/media" (wsConnect initialState "S" 1) "S" true
        (some (InFrame.mk none none none))).2
      = [WsEvent.directSend (OutPayload.reaction "👍") true,
         WsEvent.resolveMedia [] [],
         WsEvent.busHandoff "S" "S" "" []] := by
  refine ⟨rfl, ?_⟩
  have h := (c4_missing_fields_forwarded "/media" "S"
      (wsConnect initialState "S" 1) true).2.1 (InFrame.mk none none none) rfl
  exact h.trans (by decide)

-- ---------------------------------------------------------------------
-- C7
-- ---------------------------------------------------------------------

theorem strData_append (a b : String) : (a ++ b).data = a.data ++ b.data := by
  cases a
  cases b
  rfl

theorem pyDrop_append (pre rest : String) :
    pyDrop (pre ++ rest) (String.length pre) = rest := by
  cases pre with
  | mk a =>
      cases rest with
      | mk b =>
          show String.mk (((String.mk a ++ String.mk b).data).drop a.length)
            = String.mk b
          rw [strData_append]
          rw [List.drop_left]

/-- C7: for a frame of the recognized message kind, each media URL of
the served-upload form `/uploads/<name>` is mapped to the path obtained
by stripping the `/uploads/` prefix and joining `<name>` with the upload
root, every other URL passes through unchanged, and the normalized tuple
`{sender_id, chat_id, content, media}` — both ids equal to the session
id — is handed to the bus collaborator. -/
theorem c7_inbound_resolution_and_handoff (uploadDir sid : String)
    (st : ChanState) (ackOk : Bool) (f : InFrame)
    (hf : f.type = none ∨ f.type = some "message") :
    (wsFrameStep uploadDir st sid ackOk (some f)).2
      = (match st.connections sid with
          | some _ => [WsEvent.directSend (OutPayload.reaction "👍") ackOk]
          | none => []) ++
        [WsEvent.resolveMedia (f.media.getD [])
          ((f.media.getD []).map (resolveInboundUrl uploadDir)),
         WsEvent.busHandoff sid sid (pyStrip (f.content.getD ""))
          ((f.media.getD []).map (resolveInboundUrl uploadDir))] ∧
    (∀ name : String, resolveInboundUrl uploadDir ("/uploads/" ++ name)
        = pathJoin uploadDir name) ∧
    (∀ url : String, pyStartsWith url "/uploads/" = false →
        resolveInboundUrl uploadDir url = url) := by
  refine ⟨?_, ?_, ?_⟩
  · rcases hf with hf | hf <;>
      cases hc : st.connections sid <;>
        simp [wsFrameStep, onWsMessage, hf, hc]
  · intro name
    rw [resolveInboundUrl, if_pos (pyStartsWith_append "/uploads/" name),
      pyDrop_append]
  · intro url hurl
    simp [resolveInboundUrl, hurl]

/-- Witness for C7: a message frame with media
`["/uploads/a.png", "http://b/c"]` on connected session "S" is handed
off with both ids equal to "S", the served-upload URL resolved to
`/media/a.png` and the external URL untouched. -/
theorem c7_witness :
    ((InFrame.mk (some "message") (some "hi")
        (some ["/uploads/a.png", "http://b/c"])).type = none ∨
      (InFrame.mk (some "message") (some "hi")
        (some ["/uploads/a.png", "http://b/c"])).type = some "message") ∧
    (wsFrameStep "/media" (wsConnect initialState "S" 5) "S" true
        (some (InFrame.mk (some "message") (some "hi")
          (some ["/uploads/a.png", "http://b/c"])))).2
      = [WsEvent.directSend (OutPayload.reaction "👍") true,
         WsEvent.resolveMedia ["/uploads/a.png", "http://b/c"]
           ["/media/a.png", "http://b/c"],
         WsEvent.busHandoff "S" "S" "hi" ["/media/a.png", "http://b/c"]] := by
  refine ⟨Or.inr rfl, ?_⟩
  have h := (c7_inbound_resolution_and_handoff "/media" "S"
      (wsConnect initialState "S" 5) true
      (InFrame.mk (some "message") (some "hi")
        (some ["/uploads/a.png", "http://b/c"])) (Or.inr rfl)).1
  exact h.trans (by decide)

-- ---------------------------------------------------------------------
-- C9
-- ---------------------------------------------------------------------

/-- C9: on a valid message frame for a session whose connection is
registered, the reaction acknowledgement is the FIRST action, attempted
on that same connection before the media-resolution pass and the bus
handoff; the equation holds for `ackOk = false` exactly as for
`ackOk = true` — a failed acknowledgement send is swallowed (no error
event of any kind appears) and the message is still resolved and
forwarded to the bus. -/
theorem c9_ack_attempted_first_failure_swallowed (uploadDir sid : String)
    (st : ChanState) (ackOk : Bool) (f : InFrame) (h : Nat)
    (hconn : st.connections sid = some h)
    (hf : f.type = none ∨ f.type = some "message") :
    (wsFrameStep uploadDir st sid ackOk (some f)).2
      = [WsEvent.directSend (OutPayload.reaction "👍") ackOk,
         WsEvent.resolveMedia (f.media.getD [])
           ((f.media.getD []).map (resolveInboundUrl uploadDir)),
         WsEvent.busHandoff sid sid (pyStrip (f.content.getD ""))
           ((f.media.getD []).map (resolveInboundUrl uploadDir))] := by
  rcases hf with hf | hf <;> simp [wsFrameStep, onWsMessage, hf, hconn]

/-- Witness for C9: with the acknowledgement send FAILING
(`ackOk = false`) on connected session "S", the handler still resolves
the media and hands the message off to the bus, and sends nothing else
to the client. -/
theorem c9_witness :
    (wsConnect initialState "S" 5).connections "S" = some 5 ∧
    ((InFrame.mk (some "message") (some "hi") none).type = none ∨
      (InFrame.mk (some "message") (some "hi") none).type = some "message") ∧
    (wsFrameStep "/media" (wsConnect initialState "S" 5) "S" false
        (some (InFrame.mk (some "message") (some "hi") none))).2
      = [WsEvent.directSend (OutPayload.reaction "👍") false,
         WsEvent.resolveMedia [] [],
         WsEvent.busHandoff "S" "S" "hi" []] := by
  refine ⟨rfl, Or.inr rfl, ?_⟩
  have h := c9_ack_attempted_first_failure_swallowed "/media" "S"
    (wsConnect initialState "S" 5) false
    (InFrame.mk (some "message") (some "hi") none) 5 rfl (Or.inr rfl)
  exact h.trans (by decide)

-- ---------------------------------------------------------------------
-- C10
-- ---------------------------------------------------------------------

theorem stripChars_head_not_space (l : List Char) (a : Char)
    (ha : (stripChars l).head? = some a) : isPySpace a = false := by
  have hne : stripChars l ≠ [] := by
    intro h
    rw [h] at ha
    exact Option.noConfusion ha
  obtain ⟨t, ht⟩ := (List.rdropWhile_prefix isPySpace
    (l.dropWhile isPySpace) : stripChars l <+: l.dropWhile isPySpace)
  have hmne : l.dropWhile isPySpace ≠ [] := by
    intro h
    rw [← ht] at h
    exact hne (List.append_eq_nil.mp h).1
  have hhead : (l.dropWhile isPySpace).head? = some a := by
    rw [← ht]
    cases hc : stripChars l with
    | nil => exact absurd hc hne
    | cons b t' =>
        have hb : b = a := by
          rw [hc] at ha
          simpa using ha
        rw [show List.rdropWhile isPySpace (List.dropWhile isPySpace l)
            = stripChars l from rfl, hc, hb]
        rfl
  have hnot := List.head_dropWhile_not isPySpace l hmne
  rw [List.head?_eq_head hmne] at hhead
  have : (l.dropWhile isPySpace).head hmne = a := by
    exact Option.some.inj hhead
  rw [this] at hnot
  simpa using hnot

theorem stripChars_getLast_not_space (l : List Char) (a : Char)
    (ha : (stripChars l).getLast? = some a) : isPySpace a = false := by
  have hne : stripChars l ≠ [] := by
    intro h
    rw [h] at ha
    exact Option.noConfusion ha
  have hnot := List.rdropWhile_last_not isPySpace (l.dropWhile isPySpace)
    (by exact hne)
  rw [List.getLast?_eq_getLast _ hne] at ha
  have h2 : (List.rdropWhile isPySpace (List.dropWhile isPySpace l)).getLast hne
      = a := Option.some.inj ha
  rw [h2] at hnot
  simpa using hnot

/-- C10: for every inbound message frame, the content forwarded to the
bus is the stripped content — a missing or null content field becomes
the empty string, and the forwarded content carries no leading and no
trailing whitespace character. -/
theorem c10_content_normalized (uploadDir sid : String) (st : ChanState)
    (ackOk : Bool) (f : InFrame)
    (hf : f.type = none ∨ f.type = some "message") :
    (wsFrameStep uploadDir st sid ackOk (some f)).2
      = (match st.connections sid with
          | some _ => [WsEvent.directSend (OutPayload.reaction "👍") ackOk]
          | none => []) ++
        [WsEvent.resolveMedia (f.media.getD [])
          ((f.media.getD []).map (resolveInboundUrl uploadDir)),
         WsEvent.busHandoff sid sid (pyStrip (f.content.getD ""))
          ((f.media.getD []).map (resolveInboundUrl uploadDir))] ∧
    (f.content = none → pyStrip (f.content.getD "") = "") ∧
    (∀ a, (pyStrip (f.content.getD "")).data.head? = some a →
      isPySpace a = false) ∧
    (∀ a, (pyStrip (f.content.getD "")).data.getLast? = some a →
      isPySpace a = false) := by
  refine ⟨?_, ?_, ?_, ?_⟩
  · rcases hf with hf | hf <;>
      cases hc : st.connections sid <;>
        simp [wsFrameStep, onWsMessage, hf, hc]
  · intro hc
    rw [hc]
    rfl
  · intro a ha
    exact stripChars_head_not_space _ a ha
  · intro a ha
    exact stripChars_getLast_not_space _ a ha

/-- Witness for C10: the frame
`{type: "message", content: "  hi \t"}` is forwarded with content
`"hi"`, whose first character `h` and last character `i` are not
whitespace. -/
theorem c10_witness :
    ((InFrame.mk (some "message") (some "  hi \t") none).type = none ∨
      (InFrame.mk (some "message") (some "  hi \t") none).type
        = some "message") ∧
    (wsFrameStep "/media" initialState "S" true
        (some (InFrame.mk (some "message") (some "  hi \t") none))).2
      = [WsEvent.resolveMedia [] [],
         WsEvent.busHandoff "S" "S" "hi" []] ∧
    isPySpace 'h' = false ∧ isPySpace 'i' = false := by
  refine ⟨Or.inr rfl, ?_, ?_, ?_⟩
  · have h := (c10_content_normalized "/media" "S" initialState true
      (InFrame.mk (some "message") (some "  hi \t") none) (Or.inr rfl)).1
    exact h.trans (by decide)
  · exact (c10_content_normalized "/media" "S" initialState true
      (InFrame.mk (some "message") (some "  hi \t") none) (Or.inr rfl)).2.2.1
      'h' (by decide)
  · exact (c10_content_normalized "/media" "S" initialState true
      (InFrame.mk (some "message") (some "  hi \t") none) (Or.inr rfl)).2.2.2
      'i' (by decide)
